import Mathlib

/-
Verification development for the connection-management core of the
monoio-transports repository (src/connectors/l4_connector.rs and
monoio-http-client/src/client/mod.rs).

Modelling conventions:
* Bytes are `Nat` values (0..255); a byte buffer is a `List Nat`.
* The async byte stream handed to `tunnel` is modelled by the list of read
  sizes the environment delivers (`sizes`) and the proxy's undelivered
  response bytes (`data`).  Each `conn.read(buf)` call appends the next
  `min size (min remaining (capacity - len))` bytes of `data` to the
  accumulated buffer `buf[..pos]`, exactly as the loop in `tunnel` uses the
  buffer; a read that delivers zero bytes models the peer closing the
  connection (or an exhausted delivery schedule).
* Fallible external operations (URI parsing, address resolution, the codec)
  are parameters of the modelled functions, with `Option`/`Except` results.
-/

namespace MonoioTransports

/-- UTF-8 bytes of a (pure-ASCII, in all our uses) string literal. -/
def strBytes (s : String) : List Nat := s.data.map Char.toNat

/-- Continuation byte of a multi-byte UTF-8 sequence (0x80..0xBF). -/
def isCont (b : Nat) : Bool := 128 ≤ b && b ≤ 191

/-- Validity of a byte list as UTF-8, as decided by `std::str::from_utf8`
in the `tunnel` loop, presented as a byte-at-a-time state machine.  The
state is the number of continuation bytes still expected for the current
character plus the allowed range `(lo, hi)` for the next byte; at a
character boundary (state 0) the leading byte selects the sequence width
per `utf8_char_width` and the constrained range of the following byte for
the E0/ED/F0/F4 leading bytes; every later continuation byte must lie in
128..191. -/
def validUtf8From : Nat → Nat → Nat → List Nat → Bool
  | 0, _, _, [] => true
  | 0, _, _, b :: rest =>
    if b ≤ 127 then validUtf8From 0 128 191 rest
    else if 194 ≤ b && b ≤ 223 then validUtf8From 1 128 191 rest
    else if b = 224 then validUtf8From 2 160 191 rest
    else if 225 ≤ b && b ≤ 236 then validUtf8From 2 128 191 rest
    else if b = 237 then validUtf8From 2 128 159 rest
    else if 238 ≤ b && b ≤ 239 then validUtf8From 2 128 191 rest
    else if b = 240 then validUtf8From 3 144 191 rest
    else if 241 ≤ b && b ≤ 243 then validUtf8From 3 128 191 rest
    else if b = 244 then validUtf8From 3 128 143 rest
    else false
  | _ + 1, _, _, [] => false
  | k + 1, lo, hi, b :: rest =>
    if lo ≤ b && b ≤ hi then validUtf8From k 128 191 rest else false

/-- A byte list is valid UTF-8 when the state machine accepts it starting
at a character boundary. -/
def validUtf8 (l : List Nat) : Bool := validUtf8From 0 128 191 l

/-- The `recvd.starts_with(..)` disjunction of the `tunnel` loop.  The
needles are ASCII, so `str::starts_with` coincides with byte-prefix
testing on the (UTF-8 valid) accumulated buffer. -/
def startsWithSuccess (bs : List Nat) : Bool :=
  (strBytes ("HTTP/1.1 200")).isPrefixOf bs
    || (strBytes ("HTTP/1.0 200")).isPrefixOf bs
    || (strBytes ("HTTP/2 200")).isPrefixOf bs

/-- Bytes of the blank-line terminator checked by `recvd.ends_with("\r\n\r\n")`. -/
def terminator : List Nat := strBytes ("\x0d\x0a\x0d\x0a")

/-- The full success condition of the `tunnel` read loop: the accumulated
bytes are valid UTF-8, start with an accepted status line and end with the
blank-line terminator. -/
def successCheck (bs : List Nat) : Bool :=
  validUtf8 bs && (startsWithSuccess bs && terminator.isSuffixOf bs)

/-- Outcome of the `tunnel` read loop.  `errInvalidUtf8` and
`errInvalidData` both surface as `io::ErrorKind::InvalidData` in the
source (the former carries the `Utf8Error`, the latter the message
"invalid data"); `errUnexpectedEof` is `io::ErrorKind::UnexpectedEof`. -/
inductive TunnelOutcome where
  | ok
  | errUnexpectedEof
  | errInvalidUtf8
  | errInvalidData
deriving DecidableEq

/-- Capacity of the response buffer: `Vec::with_capacity(8 * 1024)`. -/
def tunnelCap : Nat := 8 * 1024

/-- The read loop of `tunnel` (l4_connector.rs lines 82-100).  Arguments:
remaining read sizes, undelivered response bytes, accumulated buffer
contents (`buf[..pos]`, initially empty after `buf.clear()`).  Returns the
loop's outcome together with the bytes consumed from the stream, which the
source keeps in `buf[..pos]`.  A delivered read appends to the buffer
(`pos += res`); `res == 0` hits the unexpected-eof arm; `res == buf.len()`
is the `if res == buf.len()` invalid-data arm. -/
def tunnelRecv (cap : Nat) : List Nat → List Nat → List Nat → TunnelOutcome × List Nat
  | [], _, acc => (TunnelOutcome.errUnexpectedEof, acc)
  | n :: rest, data, acc =>
    let res := min n (min data.length (cap - acc.length))
    if res = 0 then (TunnelOutcome.errUnexpectedEof, acc)
    else
      let acc2 := acc ++ data.take res
      if validUtf8 acc2 = false then (TunnelOutcome.errInvalidUtf8, acc2)
      else if startsWithSuccess acc2 then
        if terminator.isSuffixOf acc2 then (TunnelOutcome.ok, acc2)
        else if res = acc2.length then (TunnelOutcome.errInvalidData, acc2)
        else tunnelRecv cap rest (data.drop res) acc2
      else tunnelRecv cap rest (data.drop res) acc2

/-- The CONNECT request text built by
`format!("CONNECT {addr} HTTP/1.1\r\nHOST: {addr}\r\n\r\n")`. -/
def connectReq (addr : String) : String :=
  "CONNECT " ++ addr ++ " HTTP/1.1\x0d\x0aHOST: " ++ addr ++ "\x0d\x0a\x0d\x0a"

/-- Rendering of the destination's resolved socket address, as produced by
the `Display` implementation interpolated by `format!` (`host:port`). -/
def renderAddr (host : String) (port : Nat) : String :=
  host ++ ":" ++ Nat.repr port

/-- The `tunnel` function (l4_connector.rs lines 71-101): writes the
CONNECT request for the resolved destination address to the proxy stream
and only then runs the read loop on the proxy's response.  The first
component is the exact byte sequence written by `write_all`; the second is
the read loop's outcome with the consumed response bytes. -/
def tunnel (dest : String) (sizes data : List Nat) :
    List Nat × (TunnelOutcome × List Nat) :=
  (strBytes (connectReq dest), tunnelRecv tunnelCap sizes data [])

/-- Error type of `TryFrom<&Uri> for UnifiedL4Addr`.  `NoAuthority` and
`NoResolve` are returned by the source as shown; `ResolveIo` stands for
the `io::Error` propagated by `?` from `to_socket_addrs()` (the
`crate::FromUriError` enum itself lives outside the provided sources; its
io-error variant is kept distinct here, per the spec's error taxonomy). -/
inductive FromUriError where
  | NoAuthority
  | NoResolve
  | ResolveIo
deriving DecidableEq

/-- The parts of an `http::Uri` consumed by the key derivation: `host()`,
normalized `scheme()` and explicit `port_u16()`. -/
structure ModelUri where
  scheme : Option String
  host : Option String
  port : Option Nat
deriving DecidableEq

/-- The destination key sum type (`UnifiedL4Addr`), polymorphic in the
socket-address type, which this logic never inspects. -/
inductive UnifiedL4Addr (α : Type) where
  | Tcp (addr : α)
  | Unix (path : String)
deriving DecidableEq

/-- Default port selection of the key derivation: `Scheme::HTTP` maps to
80, `Scheme::HTTPS` to 443, anything else (or no scheme) to 0. -/
def defaultPort (scheme : Option String) : Nat :=
  match scheme with
  | some s => if s = "http" then 80 else if s = "https" then 443 else 0
  | none => 0

/-- `TryFrom<&Uri> for UnifiedL4Addr` (l4_connector.rs lines 153-176).
`resolve` models `(host, port).to_socket_addrs()`: `Except.error` is an
`io::Error` from the resolver, `Except.ok` the (possibly empty) list of
resolution results consumed through `.next()`. -/
def unifiedL4AddrOfUri {α : Type} (resolve : String → Nat → Except Unit (List α))
    (uri : ModelUri) : Except FromUriError (UnifiedL4Addr α) :=
  match uri.host with
  | none => Except.error FromUriError.NoAuthority
  | some host =>
    let port := uri.port.getD (defaultPort uri.scheme)
    match resolve host port with
    | Except.error _ => Except.error FromUriError.ResolveIo
    | Except.ok [] => Except.error FromUriError.NoResolve
    | Except.ok (a :: _) => Except.ok (UnifiedL4Addr.Tcp a)

/-- The two proxy environment variables as read by `std::env::var`:
`some v` when the variable is present (and valid unicode). -/
structure ProxyEnv where
  httpProxyLower : Option String
  httpProxyUpper : Option String
deriving DecidableEq

/-- `std::env::var("http_proxy").or_else(|_| std::env::var("HTTP_PROXY")).ok()`. -/
def envProxyVar (env : ProxyEnv) : Option String :=
  match env.httpProxyLower with
  | some v => some v
  | none => env.httpProxyUpper

/-- Observable behaviour of a successful-path `TcpConnector::connect` call:
which peer the TCP connection is opened to, whether the tunnel handshake is
run (and against which destination), and whether `set_nodelay(true)` is
invoked on the returned stream.  `errInvalidInput` is the mapped
proxy-URL parse error; `panicNoHost` is the `proxy_url.host().unwrap()`
panic on a host-less proxy URL. -/
inductive ConnectOutcome (K : Type) where
  | direct (dest : K) (nodelay : Bool)
  | tunneled (proxyHost : String) (proxyPort : Nat) (dest : K) (nodelay : Bool)
  | errInvalidInput
  | panicNoHost
deriving DecidableEq

/-- `TcpConnector::connect` as compiled with the `proxy` feature
(l4_connector.rs lines 35-59).  `parseUri` models
`addr.parse::<hyper::Uri>()`.  OS-level connects and the tunnel handshake
are taken on their success path here; their failures propagate unchanged
through `?` / `.await` and are not at issue in the claims about this
function.  Note that `self.no_delay` (the `noDelay` argument) is never
consulted in this build: both branches call `set_nodelay(true)`
unconditionally. -/
def tcpConnectProxyBuild {K : Type} (noDelay : Bool) (env : ProxyEnv)
    (parseUri : String → Option ModelUri) (key : K) : ConnectOutcome K :=
  match envProxyVar env with
  | some addr =>
    match parseUri addr with
    | none => ConnectOutcome.errInvalidInput
    | some url =>
      match url.host with
      | none => ConnectOutcome.panicNoHost
      | some h => ConnectOutcome.tunneled h (url.port.getD 7890) key true
  | none => ConnectOutcome.direct key true

/-- `TcpConnector::connect` as compiled without the `proxy` feature
(l4_connector.rs lines 60-66): a direct connect, with `set_nodelay(true)`
invoked exactly when `self.no_delay` is set. -/
def tcpConnectDirectBuild {K : Type} (noDelay : Bool) (key : K) : ConnectOutcome K :=
  ConnectOutcome.direct key noDelay

/-- The `inspect(|io| { let _ = io.set_nodelay(true); })` closure body:
the result of `set_nodelay` is bound to `_` and dropped, so the connected
stream is returned unchanged whatever that result is. -/
def applyNodelayBestEffort {S : Type} (setResult : Except Unit Unit) (s : S) : S :=
  match setResult with
  | Except.ok _ => s
  | Except.error _ => s

/-- Modelled from the spec: `ClientRequest` (crate::request, not among the
provided sources) is a request builder carrying the headers added so far;
per the spec, default headers are merged "with the same name semantics as
header-map append, not replace", and `HeaderMap` iteration follows the
headers' original insertion order, so the builder is modelled as the list
of (name, value) pairs in insertion order. -/
structure ClientRequestModel where
  headers : List (String × String)
deriving DecidableEq

/-- Modelled from the spec: `ClientRequest::header` appends the pair to the
request's headers (header-map append, never replace). -/
def headerAppend (r : ClientRequestModel) (k v : String) : ClientRequestModel :=
  ClientRequestModel.mk (r.headers ++ [(k, v)])

/-- `Client::request` (client/mod.rs lines 79-91): builds a fresh request,
then folds the client's configured default headers into it in their
insertion order via `ClientRequest::header`. -/
def clientRequest (defaults : List (String × String)) : ClientRequestModel :=
  defaults.foldl (fun r kv => headerAppend r kv.1 kv.2) (ClientRequestModel.mk [])

/-- What a call of `Client::send` evaluates to.  `err` is the `Err` variant
of its declared `Result<_, ()>`; `panicked` models an `unwrap()` firing. -/
inductive SendResult (R : Type) where
  | ok (resp : R)
  | err
  | panicked

/-- `Client::send` (client/mod.rs lines 94-105).  Each parameter models one
fallible pipeline step: `tryIntoKey` the `uri.try_into()` result,
`connect` the connector, `sendAndFlush` the codec write+flush, and `next`
the codec's `next().await` (an `Option` of a `Result`).  Every failure is
`unwrap()`ed in the source, hence maps to `panicked` here. -/
def clientSend {K C R : Type} (tryIntoKey : Option K) (connect : K → Option C)
    (sendAndFlush : C → Option Unit) (next : C → Option (Except Unit R)) : SendResult R :=
  match tryIntoKey with
  | none => SendResult.panicked
  | some key =>
    match connect key with
    | none => SendResult.panicked
    | some codec =>
      match sendAndFlush codec with
      | none => SendResult.panicked
      | some _ =>
        match next codec with
        | none => SendResult.panicked
        | some (Except.error _) => SendResult.panicked
        | some (Except.ok resp) => SendResult.ok resp

/-
Helper lemmas (shared by several claim proofs below).
-/

/-- An ASCII byte at a character boundary just advances the UTF-8 validator. -/
theorem validUtf8_cons_ascii {b : Nat} (l : List Nat) (h : b ≤ 127) :
    validUtf8 (b :: l) = validUtf8 l := by
  simp only [validUtf8, validUtf8From]
  rw [if_pos h]

/-- The key soundness/completeness fact about the `tunnel` read loop: as
long as the accumulated buffer does not yet pass the success check, the
loop returns `ok` exactly when the final buffer passes the check, and the
final buffer extends the accumulated one by a prefix of the undelivered
response bytes (no received byte is dropped or reordered). -/
theorem tunnelRecv_ok_iff (cap : Nat) :
    ∀ (sizes data acc : List Nat), successCheck acc = false →
      (((tunnelRecv cap sizes data acc).1 = TunnelOutcome.ok) ↔
        successCheck (tunnelRecv cap sizes data acc).2 = true)
      ∧ ∃ cs t, (tunnelRecv cap sizes data acc).2 = acc ++ cs ∧ cs ++ t = data := by
  intro sizes
  induction sizes with
  | nil =>
    intro data acc h
    exact ⟨by simp [tunnelRecv, h], [], data, by simp [tunnelRecv], rfl⟩
  | cons n rest ih =>
    intro data acc h
    simp only [tunnelRecv]
    split_ifs with hres hutf hsw hterm hfull
    · exact ⟨by simp [h], [], data, by simp, rfl⟩
    · refine ⟨by simp [successCheck, hutf], data.take _, data.drop _, rfl,
        List.take_append_drop _ _⟩
    · refine ⟨?_, data.take _, data.drop _, rfl, List.take_append_drop _ _⟩
      simp [successCheck, hsw, hterm, eq_true_of_ne_false hutf]
    · refine ⟨?_, data.take _, data.drop _, rfl, List.take_append_drop _ _⟩
      simp [successCheck, hterm]
    · have h2 : successCheck
          (acc ++ data.take (min n (min data.length (cap - acc.length)))) = false := by
        simp [successCheck, hterm]
      obtain ⟨hiff, cs', t', hbuf, hdata⟩ := ih (data.drop _) _ h2
      refine ⟨hiff, data.take _ ++ cs', t', by rw [hbuf, List.append_assoc], ?_⟩
      rw [List.append_assoc, hdata, List.take_append_drop]
    · have h2 : successCheck
          (acc ++ data.take (min n (min data.length (cap - acc.length)))) = false := by
        simp [successCheck, hsw]
      obtain ⟨hiff, cs', t', hbuf, hdata⟩ := ih (data.drop _) _ h2
      refine ⟨hiff, data.take _ ++ cs', t', by rw [hbuf, List.append_assoc], ?_⟩
      rw [List.append_assoc, hdata, List.take_append_drop]

/-- Once the accumulated buffer is nonempty, the `res == buf.len()`
invalid-data arm of the loop can no longer fire: the newly delivered byte
count is strictly smaller than the accumulated byte count. -/
theorem tunnelRecv_ne_invalid_of_ne_nil (cap : Nat) :
    ∀ (sizes data acc : List Nat), acc ≠ [] →
      (tunnelRecv cap sizes data acc).1 ≠ TunnelOutcome.errInvalidData := by
  intro sizes
  induction sizes with
  | nil => intro data acc h; simp [tunnelRecv]
  | cons n rest ih =>
    intro data acc hacc
    simp only [tunnelRecv]
    split_ifs with hres hutf hsw hterm hfull
    · simp
    · simp
    · simp
    · exfalso
      have hlen : (List.take (min n (min data.length (cap - acc.length))) data).length
          = min n (min data.length (cap - acc.length)) := by
        rw [List.length_take]
        exact Nat.min_eq_left (le_trans (Nat.min_le_right _ _) (Nat.min_le_left _ _))
      rw [List.length_append, hlen] at hfull
      have hz : acc.length = 0 := by omega
      exact hacc (List.length_eq_zero.mp hz)
    · exact ih _ _ (by simp [hacc])
    · exact ih _ _ (by simp [hacc])

/-- All-ASCII capital-A buffers are valid UTF-8. -/
theorem validUtf8_replicate_65 : ∀ n, validUtf8 (List.replicate n 65) = true := by
  intro n
  induction n with
  | zero => rfl
  | succ k ih =>
    rw [List.replicate_succ, validUtf8_cons_ascii _ (by norm_num)]
    exact ih

/-- A buffer beginning with byte `A` matches none of the three accepted
status-line byte patterns (all of which begin with `H`). -/
theorem startsWithSuccess_cons65 (l : List Nat) : startsWithSuccess (65 :: l) = false := by
  simp [startsWithSuccess, strBytes, List.isPrefixOf]

/-- An all-`A` buffer does not end with the blank-line terminator. -/
theorem terminator_not_suffix_replicate65 (n : Nat) :
    terminator.isSuffixOf (List.replicate n 65) = false := by
  cases n with
  | zero => rfl
  | succ k =>
    simp [terminator, strBytes, List.isSuffixOf, List.isPrefixOf, List.reverse_replicate]

/-- Evaluation of the read loop on a response of 8192 `A` bytes delivered
in one full-capacity read: the next read is zero-length, so the loop ends
in the unexpected-eof arm. -/
theorem run_capacity_65 :
    tunnelRecv tunnelCap [8192] (List.replicate 8192 65) []
      = (TunnelOutcome.errUnexpectedEof, List.replicate 8192 65) := by
  have hv := validUtf8_replicate_65 8192
  have hs : startsWithSuccess (List.replicate 8192 65) = false := by
    rw [show (8192 : Nat) = 8191 + 1 from rfl, List.replicate_succ]
    exact startsWithSuccess_cons65 _
  simp only [tunnelRecv, tunnelCap, List.length_replicate, List.take_replicate,
    List.nil_append, Nat.min_self, Nat.sub_zero, List.length_nil]
  norm_num [hv, hs]

/-
Claim theorems.
-/

/-- C1: the tunnel handshake succeeds, returning the raw proxy stream,
exactly when the bytes accumulated across all reads, interpreted as UTF-8,
begin with one of the accepted success status lines and end with the
blank-line terminator; the accumulated buffer is exactly the prefix of the
proxy's response consumed so far (no received byte is discarded between
reads), and the check is re-evaluated against the full accumulated buffer
after every read. -/
theorem c1_tunnel_success :
    ∀ (dest : String) (sizes data : List Nat),
      ((tunnel dest sizes data).2.1 = TunnelOutcome.ok ↔
        (validUtf8 (tunnel dest sizes data).2.2 = true
          ∧ startsWithSuccess (tunnel dest sizes data).2.2 = true
          ∧ terminator.isSuffixOf (tunnel dest sizes data).2.2 = true))
      ∧ ∃ t, (tunnel dest sizes data).2.2 ++ t = data := by
  intro dest sizes data
  have h0 : successCheck ([] : List Nat) = false := by decide
  obtain ⟨hiff, cs, t, hbuf, hdata⟩ := tunnelRecv_ok_iff tunnelCap sizes data [] h0
  constructor
  · show (tunnelRecv tunnelCap sizes data []).1 = TunnelOutcome.ok ↔ _
    rw [hiff]
    simp [successCheck, Bool.and_eq_true, tunnel]
  · refine ⟨t, ?_⟩
    show (tunnelRecv tunnelCap sizes data []).2 ++ t = data
    rw [hbuf]
    simpa using hdata

/-- Witness for C1: a proxy that answers with a complete
`HTTP/1.1 200 Connection Established` response in one read makes the
handshake succeed. -/
theorem c1_tunnel_success_witness :
    (tunnel (renderAddr ("127.0.0.1") 443) [39]
      (strBytes ("HTTP/1.1 200 Connection Established\x0d\x0a\x0d\x0a"))).2.1
      = TunnelOutcome.ok := by
  have h := (c1_tunnel_success (renderAddr ("127.0.0.1") 443) [39]
    (strBytes ("HTTP/1.1 200 Connection Established\x0d\x0a\x0d\x0a"))).1
  exact h.mpr ⟨by decide, by decide, by decide⟩

/-- C2 (amended): the tunnel handshake fails with the buffer-full
invalid-data error exactly when the first read delivers bytes that are
valid UTF-8, start with an accepted success status line, and do not end
with the blank-line terminator (the `res == buf.len()` comparison can only
hold on the first read, because afterwards the accumulated buffer is
strictly longer than any single read); in particular a response that never
starts with a success status line never produces this error. -/
theorem c2_invalid_data_iff :
    ∀ (sizes data : List Nat),
      ((tunnelRecv tunnelCap sizes data []).1 = TunnelOutcome.errInvalidData) ↔
        (∃ n rest, sizes = n :: rest ∧
          (tunnelRecv tunnelCap sizes data []).2 = data.take (min n (min data.length tunnelCap)) ∧
          min n (min data.length tunnelCap) ≠ 0 ∧
          validUtf8 (data.take (min n (min data.length tunnelCap))) = true ∧
          startsWithSuccess (data.take (min n (min data.length tunnelCap))) = true ∧
          terminator.isSuffixOf (data.take (min n (min data.length tunnelCap))) = false) := by
  intro sizes data
  cases sizes with
  | nil =>
    constructor
    · intro h; exact absurd h (by simp [tunnelRecv])
    · rintro ⟨n, rest, h, -⟩; exact absurd h (by simp)
  | cons n rest =>
    have hle : min n (min data.length tunnelCap) ≤ data.length :=
      le_trans (Nat.min_le_right _ _) (Nat.min_le_left _ _)
    have hlen : (List.take (min n (min data.length tunnelCap)) data).length
        = min n (min data.length tunnelCap) := by
      rw [List.length_take]
      exact Nat.min_eq_left hle
    constructor
    · intro h
      refine ⟨n, rest, rfl, ?_⟩
      revert h
      simp only [tunnelRecv, List.length_nil, Nat.sub_zero, List.nil_append]
      split_ifs with hres hutf hsw hterm hfull
      · intro h; exact absurd h (by simp)
      · intro h; exact absurd h (by simp)
      · intro h; exact absurd h (by simp)
      · intro _
        exact ⟨rfl, hres, eq_true_of_ne_false hutf, hsw, Bool.eq_false_iff.mpr hterm⟩
      · intro h
        exfalso
        refine tunnelRecv_ne_invalid_of_ne_nil tunnelCap rest _ _ ?_ h
        intro hcon
        rw [hcon] at hlen
        exact hres (by simpa using hlen.symm)
      · intro h
        exfalso
        refine tunnelRecv_ne_invalid_of_ne_nil tunnelCap rest _ _ ?_ h
        intro hcon
        rw [hcon] at hlen
        exact hres (by simpa using hlen.symm)
    · rintro ⟨n', rest', heq, hbuf, hne, hv, hsw, hterm⟩
      injection heq with h1 h2
      subst h1
      subst h2
      simp only [tunnelRecv, List.length_nil, Nat.sub_zero, List.nil_append]
      rw [if_neg hne, if_neg (by simp [hv]), if_pos hsw, if_neg (by simp [hterm]),
        if_pos hlen.symm]

/-- Witness for C2 (amended): a first read of `HTTP/1.1 200 OK\r\n`
(success status line, headers not yet finished) makes the handshake fail
with the invalid-data error even though the buffer is nowhere near
capacity. -/
theorem c2_invalid_data_iff_witness :
    (tunnelRecv tunnelCap [17] (strBytes ("HTTP/1.1 200 OK\x0d\x0a")) []).1
      = TunnelOutcome.errInvalidData := by
  rw [c2_invalid_data_iff]
  exact ⟨17, [], rfl, by decide, by decide, by decide, by decide, by decide⟩

/-- Counterexample to C2 as stated: a proxy response of 8192 `A` bytes
fills the buffer to its full capacity in one read, does not end with the
terminator (and never starts with a success status line), yet the
handshake fails with the unexpected-eof error, not the invalid-data
error. -/
theorem c2_buffer_capacity_cex :
    (tunnelRecv tunnelCap [8192] (List.replicate 8192 65) []).1 = TunnelOutcome.errUnexpectedEof
    ∧ (tunnelRecv tunnelCap [8192] (List.replicate 8192 65) []).2.length = tunnelCap
    ∧ terminator.isSuffixOf (tunnelRecv tunnelCap [8192] (List.replicate 8192 65) []).2 = false
    ∧ TunnelOutcome.errUnexpectedEof ≠ TunnelOutcome.errInvalidData := by
  rw [run_capacity_65]
  exact ⟨rfl, by norm_num [List.length_replicate, tunnelCap], terminator_not_suffix_replicate65 8192,
    by decide⟩

/-- C3: whenever a read returns zero bytes (the peer closed, the delivery
schedule is exhausted, or no byte can be delivered), the handshake fails
with the unexpected-end-of-stream error, whatever has been accumulated so
far. -/
theorem c3_zero_read_eof :
    ∀ (cap n : Nat) (rest data acc : List Nat),
      min n (min data.length (cap - acc.length)) = 0 →
      tunnelRecv cap (n :: rest) data acc = (TunnelOutcome.errUnexpectedEof, acc)
      ∧ tunnelRecv cap [] data acc = (TunnelOutcome.errUnexpectedEof, acc) := by
  intro cap n rest data acc h
  exact ⟨by simp [tunnelRecv, h], by simp [tunnelRecv]⟩

/-- Witness for C3: the spec's test — the proxy wrote 10 bytes with no
terminator and then closed, so the next read returns zero bytes and the
handshake fails with the unexpected-eof error. -/
theorem c3_zero_read_eof_witness :
    tunnelRecv tunnelCap [1] [] (strBytes ("HTTP/1.1 2"))
      = (TunnelOutcome.errUnexpectedEof, strBytes ("HTTP/1.1 2")) :=
  (c3_zero_read_eof tunnelCap 1 [] [] (strBytes ("HTTP/1.1 2")) (by decide)).1

theorem strBytes_append (a b : String) : strBytes (a ++ b) = strBytes a ++ strBytes b := by
  simp [strBytes]

/-- C4: the tunnel handshake writes to the proxy exactly the bytes
`CONNECT {host}:{port} HTTP/1.1\r\nHOST: {host}:{port}\r\n\r\n` for the
destination's resolved socket address rendered as `host:port`, with no
trailing body (the byte equation below pins every written byte, ending at
the final `\r\n\r\n`), and the written bytes do not depend on any
response byte (the write happens before any read). -/
theorem c4_connect_wire_format :
    ∀ (host : String) (port : Nat) (sizes data : List Nat),
      (tunnel (renderAddr host port) sizes data).1 =
        strBytes ("CONNECT ") ++ strBytes host ++ [58] ++ strBytes (Nat.repr port)
          ++ strBytes (" HTTP/1.1") ++ [13, 10] ++ strBytes ("HOST: ")
          ++ strBytes host ++ [58] ++ strBytes (Nat.repr port) ++ [13, 10, 13, 10] := by
  intro host port sizes data
  show strBytes (connectReq (renderAddr host port)) = _
  have h1 : strBytes (" HTTP/1.1\x0d\x0aHOST: ")
      = strBytes (" HTTP/1.1") ++ [13, 10] ++ strBytes ("HOST: ") := by decide
  have h2 : strBytes ("\x0d\x0a\x0d\x0a") = [13, 10, 13, 10] := by decide
  have h3 : strBytes (":") = [58] := by decide
  simp only [connectReq, renderAddr, strBytes_append, h1, h2, h3, List.append_assoc]

theorem c4_connect_wire_format_witness :
    (tunnel (renderAddr ("10.0.0.1") 8080) [] []).1 =
      strBytes ("CONNECT 10.0.0.1:8080 HTTP/1.1\x0d\x0aHOST: 10.0.0.1:8080\x0d\x0a\x0d\x0a") := by
  rw [c4_connect_wire_format ("10.0.0.1") 8080 [] []]
  decide

/-- C5: deriving a destination key from a URI with a host uses the URI's
explicit port when present, otherwise port 80 for scheme `http`, 443 for
`https` and 0 for any other or absent scheme; the (host, port) pair is
resolved and the first resolution result becomes the key's TCP socket
address. -/
theorem c5_uri_to_key :
    ∀ (α : Type) (resolve : String → Nat → Except Unit (List α)) (uri : ModelUri)
      (host : String) (a : α) (rest : List α),
      uri.host = some host →
      resolve host (uri.port.getD (defaultPort uri.scheme)) = Except.ok (a :: rest) →
      unifiedL4AddrOfUri resolve uri = Except.ok (UnifiedL4Addr.Tcp a)
      ∧ (∀ p, uri.port = some p → uri.port.getD (defaultPort uri.scheme) = p)
      ∧ (uri.port = none → uri.port.getD (defaultPort uri.scheme) = defaultPort uri.scheme)
      ∧ defaultPort (some ("http")) = 80 ∧ defaultPort (some ("https")) = 443
      ∧ (∀ s, s ≠ "http" → s ≠ "https" → defaultPort (some s) = 0)
      ∧ defaultPort none = 0 := by
  intro α resolve uri host a rest hh hr
  refine ⟨?_, ?_, ?_, by decide, by decide, ?_, rfl⟩
  · simp [unifiedL4AddrOfUri, hh, hr]
  · intro p hp; simp [hp]
  · intro hp; simp [hp]
  · intro s h1 h2; simp [defaultPort, h1, h2]

theorem c5_uri_to_key_witness :
    unifiedL4AddrOfUri (fun _ _ => Except.ok [5])
      (ModelUri.mk (some ("http")) (some ("example.com")) none)
      = Except.ok (UnifiedL4Addr.Tcp 5) :=
  (c5_uri_to_key Nat (fun _ _ => Except.ok [5])
    (ModelUri.mk (some ("http")) (some ("example.com")) none) ("example.com") 5 [] rfl rfl).1

/-- C6: key derivation fails with `NoAuthority` exactly when the URI has
no host, and with the distinct `NoResolve` error exactly when a host is
present but resolution succeeds with no result; the two kinds are never
collapsed. -/
theorem c6_error_kinds :
    ∀ (α : Type) (resolve : String → Nat → Except Unit (List α)) (uri : ModelUri),
      (unifiedL4AddrOfUri resolve uri = Except.error FromUriError.NoAuthority ↔ uri.host = none)
      ∧ (unifiedL4AddrOfUri resolve uri = Except.error FromUriError.NoResolve ↔
          ∃ h, uri.host = some h
            ∧ resolve h (uri.port.getD (defaultPort uri.scheme)) = Except.ok [])
      ∧ FromUriError.NoAuthority ≠ FromUriError.NoResolve := by
  intro α resolve uri
  refine ⟨?_, ?_, by decide⟩
  · cases hh : uri.host with
    | none => simp [unifiedL4AddrOfUri, hh]
    | some h =>
      cases hr : resolve h (uri.port.getD (defaultPort uri.scheme)) with
      | error e => simp [unifiedL4AddrOfUri, hh, hr]
      | ok l =>
        cases l with
        | nil => simp [unifiedL4AddrOfUri, hh, hr]
        | cons a t => simp [unifiedL4AddrOfUri, hh, hr]
  · cases hh : uri.host with
    | none => simp [unifiedL4AddrOfUri, hh]
    | some h =>
      cases hr : resolve h (uri.port.getD (defaultPort uri.scheme)) with
      | error e => simp [unifiedL4AddrOfUri, hh, hr]
      | ok l =>
        cases l with
        | nil => simp [unifiedL4AddrOfUri, hh, hr]
        | cons a t => simp [unifiedL4AddrOfUri, hh, hr]

theorem c6_error_kinds_witness :
    unifiedL4AddrOfUri (fun _ _ => Except.ok ([] : List Nat))
      (ModelUri.mk (some ("http")) (some ("h")) none)
      = Except.error FromUriError.NoResolve := by
  have h := (c6_error_kinds Nat (fun _ _ => Except.ok [])
    (ModelUri.mk (some ("http")) (some ("h")) none)).2.1
  exact h.mpr ⟨"h", rfl, rfl⟩

/-- C7 (amended): proxy-build connect reads `http_proxy` first, then
`HTTP_PROXY`; a configured proxy is dialled at its URL host with default
port 7890 and the tunnel handshake targets the original destination; a
parse failure of the proxy URL yields the invalid-input error; with
neither variable set it opens a direct connection but applies TCP_NODELAY
unconditionally, coinciding with the direct (non-proxy-build) connector
exactly when the no-delay setting is true. -/
theorem c7_proxy_env_behavior :
    ∀ (K : Type) (nd : Bool) (lo up : Option String)
      (parseUri : String → Option ModelUri) (key : K),
      (∀ v, lo = some v → envProxyVar (ProxyEnv.mk lo up) = some v)
      ∧ (lo = none → envProxyVar (ProxyEnv.mk lo up) = up)
      ∧ (∀ addr, envProxyVar (ProxyEnv.mk lo up) = some addr → parseUri addr = none →
          tcpConnectProxyBuild nd (ProxyEnv.mk lo up) parseUri key
            = ConnectOutcome.errInvalidInput)
      ∧ (∀ addr url h, envProxyVar (ProxyEnv.mk lo up) = some addr → parseUri addr = some url →
          url.host = some h →
          tcpConnectProxyBuild nd (ProxyEnv.mk lo up) parseUri key
            = ConnectOutcome.tunneled h (url.port.getD 7890) key true)
      ∧ (∀ url : ModelUri, url.port = none → url.port.getD 7890 = 7890)
      ∧ (envProxyVar (ProxyEnv.mk lo up) = none →
          tcpConnectProxyBuild nd (ProxyEnv.mk lo up) parseUri key
            = ConnectOutcome.direct key true)
      ∧ tcpConnectDirectBuild nd key = ConnectOutcome.direct key nd := by
  intro K nd lo up parseUri key
  refine ⟨?_, ?_, ?_, ?_, ?_, ?_, rfl⟩
  · intro v hv; simp [envProxyVar, hv]
  · intro hv; simp [envProxyVar, hv]
  · intro addr ha hp; simp [tcpConnectProxyBuild, ha, hp]
  · intro addr url h ha hp hh; simp [tcpConnectProxyBuild, ha, hp, hh]
  · intro url hp; simp [hp]
  · intro ha; simp [tcpConnectProxyBuild, ha]

theorem c7_proxy_env_behavior_witness :
    @tcpConnectProxyBuild Nat true (ProxyEnv.mk (some ("not a uri")) none) (fun _ => none) 0
      = ConnectOutcome.errInvalidInput :=
  ((c7_proxy_env_behavior Nat true (some ("not a uri")) none (fun _ => none) 0).2.2.1)
    ("not a uri") rfl rfl

/-- Counterexample to C7 as stated: with no proxy variable set and the
no-delay setting false, the proxy-build connector still applies
TCP_NODELAY, so it does not behave exactly as the direct TCP connector. -/
theorem c7_direct_mode_cex :
    @tcpConnectProxyBuild Nat false (ProxyEnv.mk none none) (fun _ => none) 0
      = ConnectOutcome.direct 0 true
    ∧ @tcpConnectDirectBuild Nat false 0 = ConnectOutcome.direct 0 false
    ∧ ConnectOutcome.direct 0 true ≠ @ConnectOutcome.direct Nat 0 false := by
  exact ⟨rfl, rfl, by decide⟩

/-- C9 (amended): the result of `set_nodelay` never affects the returned
stream (failures are swallowed); the non-proxy build applies TCP_NODELAY
according to the no-delay setting, while the proxy build applies it
unconditionally on both the direct and the tunneled path. -/
theorem c9_nodelay_policy :
    ∀ (K S : Type) (nd : Bool) (lo up : Option String)
      (parseUri : String → Option ModelUri) (key : K) (setResult : Except Unit Unit) (s : S),
      applyNodelayBestEffort setResult s = s
      ∧ tcpConnectDirectBuild nd key = ConnectOutcome.direct key nd
      ∧ (envProxyVar (ProxyEnv.mk lo up) = none →
          tcpConnectProxyBuild nd (ProxyEnv.mk lo up) parseUri key
            = ConnectOutcome.direct key true)
      ∧ (∀ addr url h, envProxyVar (ProxyEnv.mk lo up) = some addr → parseUri addr = some url →
          url.host = some h →
          tcpConnectProxyBuild nd (ProxyEnv.mk lo up) parseUri key
            = ConnectOutcome.tunneled h (url.port.getD 7890) key true) := by
  intro K S nd lo up parseUri key setResult s
  refine ⟨?_, rfl, ?_, ?_⟩
  · cases setResult <;> rfl
  · intro ha; simp [tcpConnectProxyBuild, ha]
  · intro addr url h ha hp hh; simp [tcpConnectProxyBuild, ha, hp, hh]

theorem c9_nodelay_policy_witness :
    @applyNodelayBestEffort Nat (Except.error ()) 7 = 7 :=
  (c9_nodelay_policy Nat Nat true none none (fun _ => none) 0 (Except.error ()) 7).1

/-- Counterexample to C9 as stated: in the proxy build with the no-delay
setting false, a tunneled connect still applies TCP_NODELAY, so the option
is not applied according to the configurable setting. -/
theorem c9_nodelay_ignored_cex :
    @tcpConnectProxyBuild Nat false (ProxyEnv.mk (some ("http://p")) none)
        (fun _ => some (ModelUri.mk (some ("http")) (some ("p")) none)) 0
      = ConnectOutcome.tunneled ("p") 7890 0 true
    ∧ ConnectOutcome.tunneled ("p") 7890 0 true
        ≠ @ConnectOutcome.tunneled Nat ("p") 7890 0 false := by
  exact ⟨rfl, by decide⟩

theorem headers_foldl (l : List (String × String)) :
    ∀ (r : ClientRequestModel),
      (l.foldl (fun r kv => headerAppend r kv.1 kv.2) r).headers = r.headers ++ l := by
  induction l with
  | nil => intro r; simp
  | cons kv t ih =>
    intro r
    rw [List.foldl_cons, ih]
    simp [headerAppend]

/-- C8: building a request merges every client-configured default header
into the request at build time, in their original insertion order, and
headers the caller adds afterwards are appended as well — every pair from
both lists survives in order, nothing is overwritten. -/
theorem c8_default_header_merge :
    ∀ (defaults callerAdded : List (String × String)),
      (callerAdded.foldl (fun r kv => headerAppend r kv.1 kv.2)
        (clientRequest defaults)).headers = defaults ++ callerAdded := by
  intro defaults callerAdded
  rw [headers_foldl, clientRequest, headers_foldl]
  simp

theorem c8_default_header_merge_witness :
    (([(("b"), ("2"))]).foldl (fun r kv => headerAppend r kv.1 kv.2)
      (clientRequest [(("a"), ("1"))])).headers = [(("a"), ("1")), (("b"), ("2"))] := by
  rw [c8_default_header_merge]
  rfl

/-- C10: whenever `Client::send` returns, it returns the `Ok` variant;
the `Err` variant of its `Result` is never produced, because every
fallible pipeline step (key derivation, connector establishment, codec
send-and-flush, and response retrieval including the codec yielding no
response) is unwrapped and therefore panics instead of returning an
error. -/
theorem c10_send_never_err :
    ∀ (K C R : Type) (tryIntoKey : Option K) (connect : K → Option C)
      (sendAndFlush : C → Option Unit) (next : C → Option (Except Unit R)),
      (clientSend tryIntoKey connect sendAndFlush next ≠ SendResult.err)
      ∧ (tryIntoKey = none →
          clientSend tryIntoKey connect sendAndFlush next = SendResult.panicked)
      ∧ (∀ k, tryIntoKey = some k → connect k = none →
          clientSend tryIntoKey connect sendAndFlush next = SendResult.panicked)
      ∧ (∀ k c, tryIntoKey = some k → connect k = some c → sendAndFlush c = none →
          clientSend tryIntoKey connect sendAndFlush next = SendResult.panicked)
      ∧ (∀ k c, tryIntoKey = some k → connect k = some c → sendAndFlush c = some () →
          next c = none → clientSend tryIntoKey connect sendAndFlush next = SendResult.panicked)
      ∧ (∀ k c e, tryIntoKey = some k → connect k = some c → sendAndFlush c = some () →
          next c = some (Except.error e) →
          clientSend tryIntoKey connect sendAndFlush next = SendResult.panicked)
      ∧ (∀ k c r, tryIntoKey = some k → connect k = some c → sendAndFlush c = some () →
          next c = some (Except.ok r) →
          clientSend tryIntoKey connect sendAndFlush next = SendResult.ok r) := by
  intro K C R tryIntoKey connect sendAndFlush next
  refine ⟨?_, ?_, ?_, ?_, ?_, ?_, ?_⟩
  · cases tryIntoKey with
    | none => simp [clientSend]
    | some k =>
      cases hc : connect k with
      | none => simp [clientSend, hc]
      | some c =>
        cases hs : sendAndFlush c with
        | none => simp [clientSend, hc, hs]
        | some u =>
          cases hn : next c with
          | none => simp [clientSend, hc, hs, hn]
          | some res =>
            cases res with
            | error e => simp [clientSend, hc, hs, hn]
            | ok r => simp [clientSend, hc, hs, hn]
  · intro h; subst h; simp [clientSend]
  · intro k hk hc; subst hk; simp [clientSend, hc]
  · intro k c hk hc hs; subst hk; simp [clientSend, hc, hs]
  · intro k c hk hc hs hn; subst hk; simp [clientSend, hc, hs, hn]
  · intro k c e hk hc hs hn; subst hk; simp [clientSend, hc, hs, hn]
  · intro k c r hk hc hs hn; subst hk; simp [clientSend, hc, hs, hn]

theorem c10_send_never_err_witness :
    @clientSend Nat Nat Nat none (fun _ => none) (fun _ => none) (fun _ => none)
      = SendResult.panicked :=
  (c10_send_never_err Nat Nat Nat none (fun _ => none) (fun _ => none) (fun _ => none)).2.1 rfl

end MonoioTransports
